/-
Verification of the Adquimo react-sdk event pipeline.

Shallow embedding of the SDK core: the persistent key-value store
(src/utils/StorageManager.ts), the identity and session stores
(src/user/SessionManager.ts, both classes), the event factory
(src/tracking/TrackingManager.ts), the delivery client
(utils/NetworkManager.ts) and the pipeline coordinator
(src/core/AdquimoSDK.ts).

Because the stores serialize every item with JSON.stringify and read it
back with JSON.parse (no reviver), a stored Date field comes back as a
plain ISO string.  The embedding therefore models runtime JavaScript
values explicitly (JSVal below), including the stringify/parse round
trip, so that dynamic failures such as calling getTime() on a
deserialized timestamp are captured faithfully.
-/
import Mathlib

set_option maxRecDepth 100000

namespace AdquimoModel

mutual
/-- Model of a runtime JavaScript value as it occurs in the SDK: JSON
primitives, `undefined`, `Date` objects (epoch milliseconds) and plain
objects (ordered field lists, later writes overriding in place). Arrays
never reach the storage layer in the modelled code paths. -/
inductive JSVal : Type where
  | str (s : String)
  | num (n : Int)
  | bool (b : Bool)
  | null
  | undef
  | date (epochMs : Int)
  | obj (fields : JSFields)

/-- Field list of a JavaScript object, in insertion order. -/
inductive JSFields : Type where
  | nil
  | cons (key : String) (val : JSVal) (rest : JSFields)
end

/-- First binding of a key in a field list; `undefined` when absent
(JavaScript property access on a missing key). -/
def JSFields.get : JSFields → String → JSVal
  | .nil, _ => .undef
  | .cons k v rest, key => if k = key then v else rest.get key

/-- Property write / object-spread override: replaces the binding in
place when the key exists, otherwise appends it (JS object semantics). -/
def JSFields.setField : JSFields → String → JSVal → JSFields
  | .nil, key, v => .cons key v .nil
  | .cons k w rest, key, v =>
    if k = key then .cons k v rest else .cons k w (rest.setField key v)

/-- Property access on an arbitrary value: objects look the key up,
anything else yields `undefined` (the modelled code only reads
properties of objects). -/
def objGet (v : JSVal) (key : String) : JSVal :=
  match v with
  | .obj fields => fields.get key
  | _ => (.undef)

/-- Property override on an object value (models `\x7b...spread, k: v\x7d`). -/
def objSet (v : JSVal) (key : String) (val : JSVal) : JSVal :=
  match v with
  | .obj fields => .obj (fields.setField key val)
  | other => other

/-- JavaScript truthiness of a value. -/
def truthy : JSVal → Bool
  | .str s => !s.isEmpty
  | .num n => n ≠ 0
  | .bool b => b
  | .null => false
  | .undef => false
  | .date _ => true
  | .obj _ => true

/-- Model of calling `.getTime()` on a value: only an actual `Date` has
the method; on any other value the call is a TypeError (`none`). -/
def getTime : JSVal → Option Int
  | .date t => some t
  | _ => none

/-- Rendering of a `Date` by `Date.prototype.toJSON`.  The concrete ISO
text never matters to the verified properties (only that the result is a
string, not a `Date`), so the epoch value is rendered directly. -/
def dateToJSONString (epochMs : Int) : String :=
  "iso:" ++ toString epochMs

mutual
/-- Effect of a `JSON.stringify` / `JSON.parse` round trip on a value:
`Date`s become their ISO strings, `undefined` object fields are dropped,
everything JSON-representable survives unchanged.  The stores serialize
on `set` and parse on `get`; the model applies the composition when the
value enters the backend. -/
def jsonRoundtrip : JSVal → JSVal
  | .str s => .str s
  | .num n => .num n
  | .bool b => .bool b
  | .null => .null
  | .undef => .undef
  | .date t => .str (dateToJSONString t)
  | .obj fields => .obj (jsonRoundtripFields fields)

/-- Round trip of an object field list: `undefined` fields are omitted
by `JSON.stringify`. -/
def jsonRoundtripFields : JSFields → JSFields
  | .nil => .nil
  | .cons k v rest =>
    match v with
    | .undef => jsonRoundtripFields rest
    | other => .cons k (jsonRoundtrip other) (jsonRoundtripFields rest)
end

mutual
/-- Serialized JSON text of a value, used by the store only for its
capacity check on `serializedValue.length`.  String escaping is not
modelled (no stored string in the claims needs escapes). -/
def jsonStringify : JSVal → String
  | .str s => "\"" ++ s ++ "\""
  | .num n => toString n
  | .bool b => if b then "true" else "false"
  | .null => "null"
  | .undef => "null"
  | .date t => "\"" ++ dateToJSONString t ++ "\""
  | .obj fields => "\x7b" ++ jsonStringifyFields fields ++ "\x7d"

/-- Serialized text of an object body. -/
def jsonStringifyFields : JSFields → String
  | .nil => ""
  | .cons k v rest =>
    "\"" ++ k ++ "\":" ++ jsonStringify v ++
      (match rest with
       | .nil => ""
       | more => "," ++ jsonStringifyFields more)
end

/-- Error record of the SDK (`AdquimoError`).  The source also decorates
errors with a timestamp, stack and user/session ids; those fields never
influence control flow and are omitted. -/
structure AdquimoError where
  code : String
  message : String
deriving DecidableEq, Repr

/- Constants from `src/types/index.ts` (`ADQUIMO_CONSTANTS`). -/
namespace ADQUIMO_CONSTANTS

def VERSION : String := "1.0.0"

def DEFAULT_BATCH_SIZE : Nat := 50

def DEFAULT_FLUSH_INTERVAL : Nat := 10000

def DEFAULT_RETRY_ATTEMPTS : Nat := 3

def DEFAULT_RETRY_DELAY : Nat := 1000

def MAX_EVENT_PROPERTIES : Nat := 100

def MAX_USER_PROPERTIES : Nat := 50

def MAX_SESSION_PROPERTIES : Nat := 25

def STORAGE_KEYS_USER_ID : String := "adquimo_user_id"

def STORAGE_KEYS_SESSION_ID : String := "adquimo_session_id"

def STORAGE_KEYS_USER_PROPERTIES : String := "adquimo_user_properties"

def STORAGE_KEYS_SESSION_PROPERTIES : String := "adquimo_session_properties"

end ADQUIMO_CONSTANTS

/-
Persistent key-value store, `src/utils/StorageManager.ts`.

The model covers the `memory` backend (a `Map<string,string>`); the
`localStorage`/`sessionStorage` backends satisfy the identical contract
through the same code paths.  The backend holds, per full key, the
JSON-parse of the serialized `StorageItem` (serialization happens in
`set`, parsing in `get`; the model applies the composition
`jsonRoundtrip` at `set` time, which is observationally the same).
-/

/-- State of a `StorageManager`: configured key namespace, capacity
ceiling (`maxSize`, 0 meaning the falsy no-limit configuration) and the
backend contents keyed by full (namespaced) key. -/
structure StorageState where
  pref : String
  maxSize : Nat
  data : List (String × JSVal)

namespace StorageManager

/-- Full key with the configured namespace (`getFullKey`). -/
def getFullKey (st : StorageState) (key : String) : String :=
  st.pref ++ key

/-- First binding of a full key in the backend. -/
def lookupData : List (String × JSVal) → String → Option JSVal
  | [], _ => none
  | (k, v) :: rest, key => if k = key then some v else lookupData rest key

/-- Map.set / Storage.setItem: overwrite the binding when present,
append it otherwise. -/
def upsertData : List (String × JSVal) → String → JSVal → List (String × JSVal)
  | [], key, v => [(key, v)]
  | (k, w) :: rest, key, v =>
    if k = key then (k, v) :: rest else (k, w) :: upsertData rest key v

/-- Map.delete / Storage.removeItem. -/
def deleteData : List (String × JSVal) → String → List (String × JSVal)
  | [], _ => []
  | (k, w) :: rest, key =>
    if k = key then deleteData rest key else (k, w) :: deleteData rest key

/-- Serialized `StorageItem` as built by `set`: fields `key`, `value`,
`timestamp` (a `Date`) and `ttl` (`ttl || undefined`, so a zero ttl is
stored as `undefined`). -/
def storageItem (fullKey : String) (value : JSVal) (now : Int) (ttl : Option Int) : JSVal :=
  .obj (.cons "key" (.str fullKey)
    (.cons "value" value
      (.cons "timestamp" (.date now)
        (.cons "ttl"
          (match ttl with
           | some t => if t = 0 then .undef else .num t
           | none => .undef) .nil))))

/-- StorageManager.set: serialize the item, fail with
`STORAGE_SET_ERROR` when the serialized size exceeds the configured
ceiling (`config.maxSize && serializedValue.length > config.maxSize`),
otherwise store it under the full key. -/
def set (st : StorageState) (key : String) (value : JSVal) (ttl : Option Int)
    (now : Int) : Except AdquimoError StorageState :=
  let fullKey := getFullKey st key
  let item := storageItem fullKey value now ttl
  let serialized := jsonStringify item
  if st.maxSize ≠ 0 ∧ st.maxSize < serialized.length then
    .error ⟨"STORAGE_SET_ERROR", "Value exceeds maximum storage size"⟩
  else
    .ok { st with data := upsertData st.data fullKey (jsonRoundtrip item) }

/-- StorageManager.remove: drop the binding of the full key.  The memory
backend cannot fail, so the `STORAGE_REMOVE_ERROR` wrapper is
unreachable. -/
def remove (st : StorageState) (key : String) : StorageState :=
  { st with data := deleteData st.data (getFullKey st key) }

/-- StorageManager.get: deserialize the stored item and apply the TTL
check `item.ttl && Date.now() - item.timestamp.getTime() > item.ttl`.
Because the parsed `timestamp` is an ISO string and not a `Date`, the
`.getTime()` call on it is a TypeError whenever `ttl` is truthy, caught
by the surrounding try/catch and rethrown as `STORAGE_GET_ERROR`.  On an
expired item the source removes it and returns null (implicit remove).
Returns the read value (`none` for absent) together with the
possibly-updated store. -/
def get (st : StorageState) (key : String) (now : Int) :
    Except AdquimoError (Option JSVal × StorageState) :=
  match lookupData st.data (getFullKey st key) with
  | none => .ok (none, st)
  | some item =>
    let ttlField := objGet item "ttl"
    if truthy ttlField then
      match getTime (objGet item "timestamp") with
      | none =>
        .error ⟨"STORAGE_GET_ERROR", "item.timestamp.getTime is not a function"⟩
      | some ts =>
        match ttlField with
        | .num ttl =>
          if ttl < now - ts then .ok (none, remove st key)
          else .ok (some (objGet item "value"), st)
        | _ =>
          -- A non-numeric truthy ttl compares as NaN in JS, hence never
          -- expires; unreachable for items produced by `set`.
          .ok (some (objGet item "value"), st)
    else
      .ok (some (objGet item "value"), st)

/-- StorageManager.getKeys: keys of the backend that carry the
configured namespace, with the namespace stripped. -/
def getKeys (st : StorageState) : List String :=
  (st.data.map Prod.fst).filterMap fun k =>
    if k.startsWith st.pref then some (k.drop st.pref.length) else none

end StorageManager

/-
Delivery client, `utils/NetworkManager.ts` (the repository file whose
name is recorded in the package entry point; its text sits in the
unnamed sources).
-/

/-- Retry policy (`RetryConfig` in `src/types/index.ts`). -/
structure RetryConfig where
  maxRetries : Nat
  initialDelay : Nat
  maxDelay : Nat
  backoffMultiplier : Nat
deriving DecidableEq, Repr

/-- Outcome of one `fetch` attempt: the promise either rejects (network
error or abort-on-timeout) or resolves with a response carrying an HTTP
status.  Indexed by attempt number so a transport can fail some attempts
and serve others. -/
inductive TransportOutcome : Type where
  | fail (message : String)
  | response (status : Nat)
deriving DecidableEq, Repr

/-- Predicate used in theorems: the attempt rejected. -/
def TransportOutcome.isFail : TransportOutcome → Bool
  | .fail _ => true
  | .response _ => false

/-- Response.ok of the Fetch API: status in the 200..299 range. -/
def responseOk (status : Nat) : Bool :=
  200 ≤ status ∧ status < 300

/-- ApiResponse envelope as far as control flow observes it: the success
flag and the error record of a failed response.  The payload and the
metadata block (timestamp, request id, version) carry no control
significance. -/
structure ApiResponse where
  success : Bool
  error : Option AdquimoError
deriving DecidableEq, Repr

/-- Full observable trace of one `request` call: its returned envelope,
the number of transport attempts performed, and the backoff sleeps (in
ms) taken between attempts, in order. -/
structure RequestTrace where
  result : ApiResponse
  attempts : Nat
  delays : List Nat
deriving DecidableEq, Repr

namespace NetworkManager

/-- NetworkManager.calculateDelay:
`min(initialDelay * backoffMultiplier ** attempt, maxDelay)`. -/
def calculateDelay (attempt : Nat) (rc : RetryConfig) : Nat :=
  min (rc.initialDelay * rc.backoffMultiplier ^ attempt) rc.maxDelay

/-- NetworkManager.handleResponse: a non-ok status is converted into a
returned failure envelope carrying an `HTTP_ERROR` (it is not thrown);
an ok status yields a success envelope.  Reading the response body is
modelled as always succeeding (on the non-ok path the source guards the
body parse with its own try/catch anyway). -/
def handleResponse (status : Nat) : ApiResponse :=
  if responseOk status then
    { success := true, error := none }
  else
    { success := false
      error := some ⟨"HTTP_ERROR", "HTTP " ++ toString status⟩ }

/-- NetworkManager.createErrorResponse: failure envelope wrapping the
last thrown transport error as a `NETWORK_ERROR`. -/
def createErrorResponse (message : String) : ApiResponse :=
  { success := false, error := some ⟨"NETWORK_ERROR", message⟩ }

/-- Loop body of `request` (`for attempt in 0..maxRetries`).
`remaining` is `maxRetries - attempt`, so `remaining = 0` is exactly the
`attempt === maxRetries` break of the source.  A resolved response —
whatever its status — returns `handleResponse` immediately from inside
the try block; only a rejected attempt is retried, after sleeping
`calculateDelay attempt`. -/
def requestAux (rc : RetryConfig) (transport : Nat → TransportOutcome)
    (attempt : Nat) (remaining : Nat) (delays : List Nat) : RequestTrace :=
  match transport attempt with
  | .response status =>
    { result := handleResponse status, attempts := attempt + 1, delays := delays }
  | .fail message =>
    match remaining with
    | 0 =>
      { result := createErrorResponse message, attempts := attempt + 1
        delays := delays }
    | r + 1 =>
      requestAux rc transport (attempt + 1) r
        (delays ++ [calculateDelay attempt rc])

/-- NetworkManager.request: run the attempt loop from attempt 0. -/
def request (rc : RetryConfig) (transport : Nat → TransportOutcome) : RequestTrace :=
  requestAux rc transport 0 rc.maxRetries []

/-- NetworkManager.sendBatch delegates to `request` with the configured
retry policy; the url, headers and serialized batch body do not affect
the retry control flow. -/
def sendBatch (rc : RetryConfig) (transport : Nat → TransportOutcome) : RequestTrace :=
  request rc transport

end NetworkManager

/-
Event factory, `src/tracking/TrackingManager.ts`.
-/

/-- Event record (`Event` in `src/types/index.ts`), with property values
as runtime JS values. -/
structure Event where
  id : String
  name : String
  category : Option String
  action : Option String
  label : Option String
  value : Option Int
  properties : List (String × JSVal)
  userId : Option String
  sessionId : Option String
  timestamp : Int
  source : String
  version : String

/-- Caller-supplied fields of `createEvent` (`CreateEventOptions`). -/
structure CreateEventOptions where
  name : String
  properties : Option (List (String × JSVal)) := none
  category : Option String := none
  action : Option String := none
  label : Option String := none
  value : Option Int := none

namespace TrackingManager

/-- Model of the pervasive `x || undefined` coercion on an optional
string: null, undefined and the empty string all become undefined. -/
def orUndefStr : Option String → Option String
  | some s => if s = "" then none else some s
  | none => none

/-- TrackingManager.createEvent.  The source builds the record from the
options plus the identity/session snapshot, stamps id, timestamp,
source and schema version — and returns it.  The validation block
(`eventValidator.validate`) is commented out in the source
("Skip validation for now to fix tests", lines 74-78), so no input is
ever rejected and the try/catch around the construction is unreachable:
the result is always `ok`. -/
def createEvent (opts : CreateEventOptions) (userId sessionId : Option String)
    (now : Int) (freshId : String) : Except AdquimoError Event :=
  .ok
    { id := freshId
      name := opts.name
      category := opts.category
      action := opts.action
      label := opts.label
      value := opts.value
      properties := opts.properties.getD []
      userId := orUndefStr userId
      sessionId := orUndefStr sessionId
      timestamp := now
      source := "sdk"
      version := ADQUIMO_CONSTANTS.VERSION }

end TrackingManager

/-
Spec-side validity predicates for event input, stated from the
specification text (name pattern `[A-Za-z0-9_-]+`, at most 100
properties, keys matching the same pattern, values limited to
string/number/boolean/null).  These are used to exhibit inputs the spec
calls invalid; the factory above is the code-side translation.
-/

/-- Character class of the spec name/key pattern `[A-Za-z0-9_-]`. -/
def specValidNameChar (c : Char) : Bool :=
  c.isAlphanum || c = '_' || c = '-'

/-- Spec pattern `[A-Za-z0-9_-]+` for event names and property keys. -/
def specValidName (s : String) : Bool :=
  !s.isEmpty && s.toList.all specValidNameChar

/-- Spec-allowed property values: string, number, boolean or null. -/
def specValidPropValue : JSVal → Bool
  | .str _ => true
  | .num _ => true
  | .bool _ => true
  | .null => true
  | _ => false

/-- Spec-valid property map: within the count ceiling, every key
matching the pattern and every value of an allowed type. -/
def specValidProps (props : List (String × JSVal)) : Bool :=
  props.length ≤ ADQUIMO_CONSTANTS.MAX_EVENT_PROPERTIES &&
    props.all fun kv => specValidName kv.1 && specValidPropValue kv.2

/-- Spec-valid event-creation input. -/
def specValidEventInput (opts : CreateEventOptions) : Bool :=
  specValidName opts.name && specValidProps (opts.properties.getD [])

/-
Identity store, class `UserManager` in `src/user/SessionManager.ts`.
-/

/-- Field list of an object as an association list (Object.entries). -/
def JSFields.toList : JSFields → List (String × JSVal)
  | .nil => []
  | .cons k v rest => (k, v) :: rest.toList

/-- Fields of an object value; spreading a non-object contributes no
fields. -/
def fieldsOf : JSVal → JSFields
  | .obj fields => fields
  | _ => .nil

/-- Object spread followed by explicit entries:
`\x7b...base, k1: v1, ...\x7d` — each entry overrides in place or
appends. -/
def spreadWith (base : JSVal) (extra : List (String × JSVal)) : JSVal :=
  .obj (extra.foldl (fun acc kv => acc.setField kv.1 kv.2) (fieldsOf base))

/-- In-memory state of the identity store. -/
structure UserState where
  currentUser : Option JSVal

namespace UserManager

/-- User record built in memory (`User` with `createdAt`/`lastSeenAt`
still genuine `Date`s). -/
def mkUser (id : String) (properties : List (String × JSVal))
    (createdAt lastSeenAt : Int) : JSVal :=
  .obj (.cons "id" (.str id)
    (.cons "properties" (spreadWith (.obj .nil) properties)
      (.cons "createdAt" (.date createdAt)
        (.cons "lastSeenAt" (.date lastSeenAt) .nil))))

/-- Source regex `^[a-zA-Z0-9_-]+$` (isValidPropertyKey; the same text
appears in both managers). -/
def isValidPropertyKey (key : String) : Bool :=
  !key.isEmpty && key.toList.all fun c => c.isAlphanum || c = '_' || c = '-'

/-- Source isValidPropertyValue: string, number, boolean or null. -/
def isValidPropertyValue : JSVal → Bool
  | .str _ => true
  | .num _ => true
  | .bool _ => true
  | .null => true
  | _ => false

/-- Per-entry loop of the property validators: first offending entry
throws. -/
def checkEntries : List (String × JSVal) → Except String Unit
  | [] => .ok ()
  | (k, v) :: rest =>
    if !isValidPropertyKey k then
      .error ("Invalid property key: " ++ k)
    else if !isValidPropertyValue v then
      .error ("Invalid property value for key " ++ k)
    else checkEntries rest

/-- UserManager.validateUserProperties: count ceiling 50, then the
per-entry key/value checks. -/
def validateUserProperties (props : List (String × JSVal)) : Except String Unit :=
  if ADQUIMO_CONSTANTS.MAX_USER_PROPERTIES < props.length then
    .error "User properties exceed maximum limit of 50"
  else checkEntries props

/-- UserManager.getUserId: `currentUser?.id || null` (an absent user, a
missing id or an empty id all give null). -/
def getUserId (us : UserState) : Option String :=
  match us.currentUser with
  | none => none
  | some u =>
    match objGet u "id" with
    | .str s => if s = "" then none else some s
    | _ => none

/-- UserManager.createAnonymousUser: synthesize a fresh user with a
random id, persist it, make it current. -/
def createAnonymousUser (us : UserState) (st : StorageState) (now : Int)
    (freshId : String) : UserState × StorageState × Except AdquimoError Unit :=
  let anonymousUser := mkUser freshId [] now now
  match StorageManager.set st ADQUIMO_CONSTANTS.STORAGE_KEYS_USER_ID
      anonymousUser none now with
  | .error e => (us, st, .error ⟨"ANONYMOUS_USER_ERROR", e.message⟩)
  | .ok st₁ => ({ currentUser := some anonymousUser }, st₁, .ok ())

/-- UserManager.initialize: load the persisted user, else synthesize an
anonymous one. -/
def init (us : UserState) (st : StorageState) (now : Int) (freshId : String) :
    UserState × StorageState × Except AdquimoError Unit :=
  match StorageManager.get st ADQUIMO_CONSTANTS.STORAGE_KEYS_USER_ID now with
  | .error e => (us, st, .error ⟨"USER_INIT_ERROR", e.message⟩)
  | .ok (some storedUser, st₁) => ({ currentUser := some storedUser }, st₁, .ok ())
  | .ok (none, st₁) =>
    match createAnonymousUser us st₁ now freshId with
    | (us₁, st₂, .error e) => (us₁, st₂, .error ⟨"USER_INIT_ERROR", e.message⟩)
    | okResult => okResult

/-- UserManager.identify: require a non-blank user id, merge properties
into the current user (or create a fresh record), validate the merged
properties, persist, then update the in-memory handle.  Any failure is
rethrown as `USER_IDENTIFY_ERROR` before the in-memory state changes. -/
def identify (us : UserState) (st : StorageState) (userId : String)
    (properties : List (String × JSVal)) (now : Int) :
    UserState × StorageState × Except AdquimoError Unit :=
  if userId.trim = "" then
    (us, st, .error ⟨"USER_IDENTIFY_ERROR",
      "User ID is required and must be a non-empty string"⟩)
  else
    let user :=
      match us.currentUser with
      | some cur =>
        spreadWith cur
          [("id", .str userId),
           ("properties", spreadWith (objGet cur "properties") properties),
           ("lastSeenAt", .date now)]
      | none => mkUser userId properties now now
    match validateUserProperties (fieldsOf (objGet user "properties")).toList with
    | .error msg => (us, st, .error ⟨"USER_IDENTIFY_ERROR", msg⟩)
    | .ok () =>
      match StorageManager.set st ADQUIMO_CONSTANTS.STORAGE_KEYS_USER_ID
          user none now with
      | .error e => (us, st, .error ⟨"USER_IDENTIFY_ERROR", e.message⟩)
      | .ok st₁ => ({ currentUser := some user }, st₁, .ok ())

/-- UserManager.alias (the Lean name avoids the `alias` keyword):
require both ids, look the anonymous record up under the synthetic
`anonymous_<id>` key, fail with "Anonymous user not found" when absent;
otherwise re-key the record under `userId`, persist it as the current
user and delete the anonymous record. -/
def aliasUser (us : UserState) (st : StorageState) (anonymousId userId : String)
    (now : Int) : UserState × StorageState × Except AdquimoError Unit :=
  if anonymousId = "" ∨ userId = "" then
    (us, st, .error ⟨"USER_ALIAS_ERROR",
      "Both anonymous ID and user ID are required"⟩)
  else
    match StorageManager.get st ("anonymous_" ++ anonymousId) now with
    | .error e => (us, st, .error ⟨"USER_ALIAS_ERROR", e.message⟩)
    | .ok (none, st₁) =>
      (us, st₁, .error ⟨"USER_ALIAS_ERROR", "Anonymous user not found"⟩)
    | .ok (some anonymousUser, st₁) =>
      let user := spreadWith anonymousUser
        [("id", .str userId), ("lastSeenAt", .date now)]
      match StorageManager.set st₁ ADQUIMO_CONSTANTS.STORAGE_KEYS_USER_ID
          user none now with
      | .error e => (us, st₁, .error ⟨"USER_ALIAS_ERROR", e.message⟩)
      | .ok st₂ =>
        ({ currentUser := some user },
          StorageManager.remove st₂ ("anonymous_" ++ anonymousId), .ok ())

/-- UserManager.reset: clear the current user, remove the persisted
records, then synthesize a fresh anonymous user. -/
def reset (_us : UserState) (st : StorageState) (now : Int) (freshId : String) :
    UserState × StorageState × Except AdquimoError Unit :=
  let st₁ := StorageManager.remove st ADQUIMO_CONSTANTS.STORAGE_KEYS_USER_ID
  let st₂ := StorageManager.remove st₁ ADQUIMO_CONSTANTS.STORAGE_KEYS_USER_PROPERTIES
  match createAnonymousUser { currentUser := none } st₂ now freshId with
  | (us₁, st₃, .error e) => (us₁, st₃, .error ⟨"USER_RESET_ERROR", e.message⟩)
  | okResult => okResult

end UserManager

/-
Session store, class `SessionManager` in `src/user/SessionManager.ts`.
-/

/-- In-memory state of the session store.  `sessionStartTime` holds
whatever value was assigned (a genuine `Date` for sessions created in
memory, the deserialized string for a session resumed from storage). -/
structure SessionState where
  currentSession : Option JSVal
  sessionStartTime : Option JSVal

namespace SessionManager

/-- Session record built in memory (`UserSession`); the device, browser
and location snapshots are abstract environment probes passed in by the
caller of the model. -/
def mkSession (id userId : String) (startTime : Int)
    (properties : List (String × JSVal)) (device browser location : JSVal) : JSVal :=
  .obj (.cons "id" (.str id)
    (.cons "userId" (.str userId)
      (.cons "startTime" (.date startTime)
        (.cons "properties" (spreadWith (.obj .nil) properties)
          (.cons "device" device
            (.cons "browser" browser
              (.cons "location" location .nil)))))))

/-- SessionManager.isSessionValid: false when `startTime` is falsy,
otherwise compare `now - session.startTime.getTime()` against the
30-minute window.  On a session read back from storage `startTime` is an
ISO string, so the `.getTime()` call is a TypeError (`Except.error`). -/
def isSessionValid (session : JSVal) (now : Int) : Except String Bool :=
  let startTime := objGet session "startTime"
  if !truthy startTime then .ok false
  else
    match getTime startTime with
    | none => .error "session.startTime.getTime is not a function"
    | some t => .ok (now - t < 30 * 60 * 1000)

/-- SessionManager.createNewSession: build a fresh session (defaulting
the user to "anonymous"), persist it, then set the in-memory handles. -/
def createNewSession (ss : SessionState) (st : StorageState)
    (userId : Option String) (properties : List (String × JSVal))
    (device browser location : JSVal) (now : Int) (freshId : String) :
    SessionState × StorageState × Except AdquimoError Unit :=
  let session := mkSession freshId (userId.getD "anonymous") now properties
    device browser location
  match StorageManager.set st ADQUIMO_CONSTANTS.STORAGE_KEYS_SESSION_ID
      session none now with
  | .error e => (ss, st, .error ⟨"SESSION_CREATE_ERROR", e.message⟩)
  | .ok st₁ =>
    ({ currentSession := some session, sessionStartTime := some (.date now) },
      st₁, .ok ())

/-- SessionManager.initialize: load the persisted session; resume it
when the validity check passes, replace it when the check returns false,
create a fresh one when none is stored.  Any throw inside the try block
(including the TypeError raised by `isSessionValid` on a deserialized
`startTime`) is rethrown as `SESSION_INIT_ERROR`. -/
def init (ss : SessionState) (st : StorageState)
    (device browser location : JSVal) (now : Int) (freshId : String) :
    SessionState × StorageState × Except AdquimoError Unit :=
  match StorageManager.get st ADQUIMO_CONSTANTS.STORAGE_KEYS_SESSION_ID now with
  | .error e => (ss, st, .error ⟨"SESSION_INIT_ERROR", e.message⟩)
  | .ok (some storedSession, st₁) =>
    match isSessionValid storedSession now with
    | .error msg => (ss, st₁, .error ⟨"SESSION_INIT_ERROR", msg⟩)
    | .ok true =>
      ({ currentSession := some storedSession
         sessionStartTime := some (objGet storedSession "startTime") },
        st₁, .ok ())
    | .ok false =>
      match createNewSession ss st₁ none [] device browser location now freshId with
      | (ss₁, st₂, .error e) => (ss₁, st₂, .error ⟨"SESSION_INIT_ERROR", e.message⟩)
      | okResult => okResult
  | .ok (none, st₁) =>
    match createNewSession ss st₁ none [] device browser location now freshId with
    | (ss₁, st₂, .error e) => (ss₁, st₂, .error ⟨"SESSION_INIT_ERROR", e.message⟩)
    | okResult => okResult

/-- SessionManager.getSessionId: `currentSession?.id || null`. -/
def getSessionId (ss : SessionState) : Option String :=
  match ss.currentSession with
  | none => none
  | some s =>
    match objGet s "id" with
    | .str v => if v = "" then none else some v
    | _ => none

/-- SessionManager.endSession: no-op without an active session;
otherwise compute the duration from `sessionStartTime` (0 when the
handle is null; a TypeError when it holds a deserialized string), stamp
`endTime`/`duration`, persist the ended session, then clear the
in-memory handles. -/
def endSession (ss : SessionState) (st : StorageState) (now : Int) :
    SessionState × StorageState × Except AdquimoError Unit :=
  match ss.currentSession with
  | none => (ss, st, .ok ())
  | some cur =>
    let durationResult : Except String Int :=
      match ss.sessionStartTime with
      | none => .ok 0
      | some v =>
        match getTime v with
        | none => .error "sessionStartTime.getTime is not a function"
        | some t => .ok (now - t)
    match durationResult with
    | .error msg => (ss, st, .error ⟨"SESSION_END_ERROR", msg⟩)
    | .ok duration =>
      let endedSession := spreadWith cur
        [("endTime", .date now), ("duration", .num duration)]
      match StorageManager.set st ADQUIMO_CONSTANTS.STORAGE_KEYS_SESSION_ID
          endedSession none now with
      | .error e => (ss, st, .error ⟨"SESSION_END_ERROR", e.message⟩)
      | .ok st₁ =>
        ({ currentSession := none, sessionStartTime := none }, st₁, .ok ())

/-- SessionManager.reset: end any active session, remove the persisted
session records, clear the in-memory handles. -/
def reset (ss : SessionState) (st : StorageState) (now : Int) :
    SessionState × StorageState × Except AdquimoError Unit :=
  match endSession ss st now with
  | (ss₁, st₁, .error e) => (ss₁, st₁, .error ⟨"SESSION_RESET_ERROR", e.message⟩)
  | (_, st₁, .ok ()) =>
    let st₂ := StorageManager.remove st₁ ADQUIMO_CONSTANTS.STORAGE_KEYS_SESSION_ID
    let st₃ := StorageManager.remove st₂
      ADQUIMO_CONSTANTS.STORAGE_KEYS_SESSION_PROPERTIES
    ({ currentSession := none, sessionStartTime := none }, st₃, .ok ())

end SessionManager

/-
Pipeline coordinator, `src/core/AdquimoSDK.ts`.

Cooperative interleaving is made explicit: an operation that awaits the
network takes an `arrivals` list — the events enqueued by other
cooperative tasks while the await is outstanding.  The delivery outcome
is injected through the `transport` function consumed by the
NetworkManager model.
-/

/-- Registered callback presence (`setCallbacks`); `destroy` resets the
record to the empty object. -/
structure Callbacks where
  onEvent : Bool := false
  onError : Bool := false
  onSuccess : Bool := false
deriving DecidableEq, Repr

/-- Configuration slice consumed by the coordinator control flow. -/
structure SDKConfig where
  batchSize : Nat
  flushInterval : Nat
  retryConfig : RetryConfig

/-- State of one `AdquimoSDK` instance.  The lifecycle is tracked by the
single boolean `isInitialized` (there is no separate destroyed state in
the source). -/
structure SDKState where
  config : SDKConfig
  isInitialized : Bool
  flushTimerSet : Bool
  callbacks : Callbacks
  eventQueue : List Event
  storage : StorageState
  userMgr : UserState
  sessionMgr : SessionState

namespace AdquimoSDK

/-- Error produced by `createError` when the caught value is a plain
`AdquimoError` object rather than an `Error` instance: the message is
`String(error)`, i.e. "[object Object]".  Every rethrow inside the
coordinator wraps such an object. -/
def wrapError (code : String) : AdquimoError :=
  ⟨code, "[object Object]"⟩

/-- The `SDK_NOT_INITIALIZED` error thrown by the guarded operations. -/
def notInitialized (message : String) : AdquimoError :=
  ⟨"SDK_NOT_INITIALIZED", message⟩

/-- AdquimoSDK.flush.  No initialization check.  An empty queue returns
synchronously.  Otherwise the queue is copied and replaced by an empty
one before the network await, so the `arrivals` of concurrent tasks land
in the fresh queue; on a success envelope the drained events are
delivered (returned in the middle component) and discarded, on a failure
envelope the drained events are unshifted back to the front of the
repopulated queue and a `FLUSH_ERROR` is thrown. -/
def flush (s : SDKState) (transport : Nat → TransportOutcome)
    (arrivals : List Event) : SDKState × List Event × Except AdquimoError Unit :=
  if s.eventQueue.isEmpty then (s, [], .ok ())
  else
    let events := s.eventQueue
    let response := (NetworkManager.sendBatch s.config.retryConfig transport).result
    if response.success then
      ({ s with eventQueue := arrivals }, events, .ok ())
    else
      ({ s with eventQueue := events ++ arrivals }, [],
        .error (wrapError "FLUSH_ERROR"))

/-- AdquimoSDK.queueEvent: push the event, notify the observer, and when
the queue has reached `batchSize` invoke `flush` and await it.  The
returned boolean records whether the flush branch was taken. -/
def queueEvent (s : SDKState) (event : Event) (transport : Nat → TransportOutcome)
    (arrivals : List Event) : SDKState × Bool × Except AdquimoError Unit :=
  let s₁ := { s with eventQueue := s.eventQueue ++ [event] }
  if s.config.batchSize ≤ s₁.eventQueue.length then
    match flush s₁ transport arrivals with
    | (s₂, _, r) => (s₂, true, r)
  else
    (s₁, false, .ok ())

/-- Model of `x || undefined` on an optional number (`value: value ||
undefined` maps 0 to undefined). -/
def orUndefNum : Option Int → Option Int
  | some n => if n = 0 then none else some n
  | none => none

/-- AdquimoSDK.track: fail with `SDK_NOT_INITIALIZED` unless
initialized; build the event through the factory (with the current
identity/session snapshot), enqueue it, and rethrow any failure of the
enqueue-triggered flush as `TRACKING_ERROR`. -/
def track (s : SDKState) (name : String)
    (properties : Option (List (String × JSVal)))
    (category action label : Option String) (value : Option Int)
    (transport : Nat → TransportOutcome) (arrivals : List Event)
    (now : Int) (freshId : String) :
    SDKState × Bool × Except AdquimoError Unit :=
  if !s.isInitialized then
    (s, false,
      .error (notInitialized "SDK must be initialized before tracking events"))
  else
    let eventOptions : CreateEventOptions :=
      { name := name
        properties := properties
        category := TrackingManager.orUndefStr category
        action := TrackingManager.orUndefStr action
        label := TrackingManager.orUndefStr label
        value := orUndefNum value }
    match TrackingManager.createEvent eventOptions
        (UserManager.getUserId s.userMgr)
        (SessionManager.getSessionId s.sessionMgr) now freshId with
    | .error _ => (s, false, .error (wrapError "TRACKING_ERROR"))
    | .ok event =>
      match queueEvent s event transport arrivals with
      | (s₁, flushed, .ok ()) => (s₁, flushed, .ok ())
      | (s₁, flushed, .error _) =>
        (s₁, flushed, .error (wrapError "TRACKING_ERROR"))

/-- Optional string as the runtime value of an optional field. -/
def optStr : Option String → JSVal
  | some v => .str v
  | none => (.undef)

/-- AdquimoSDK.trackPageView: gate on initialization, build the page
view (the factory again performs no validation), normalize it into a
generic event with fixed name "page_view" and the type-specific fields
folded into the properties, enqueue it; failures of the triggered flush
are rethrown as `PAGE_VIEW_ERROR`. -/
def trackPageView (s : SDKState) (url : String) (title referrer : Option String)
    (properties : Option (List (String × JSVal)))
    (transport : Nat → TransportOutcome) (arrivals : List Event)
    (now : Int) (freshId : String) :
    SDKState × Bool × Except AdquimoError Unit :=
  if !s.isInitialized then
    (s, false,
      .error (notInitialized "SDK must be initialized before tracking page views"))
  else
    let pvProperties := properties.getD []
    let mergedProperties := spreadWith
      (.obj (.cons "url" (.str url)
        (.cons "title" (optStr (TrackingManager.orUndefStr title))
          (.cons "referrer" (optStr (TrackingManager.orUndefStr referrer)) .nil))))
      pvProperties
    let event : Event :=
      { id := freshId
        name := "page_view"
        category := some "page"
        action := some "view"
        label := none
        value := none
        properties := (fieldsOf mergedProperties).toList
        userId := TrackingManager.orUndefStr (UserManager.getUserId s.userMgr)
        sessionId := TrackingManager.orUndefStr (SessionManager.getSessionId s.sessionMgr)
        timestamp := now
        source := "sdk"
        version := ADQUIMO_CONSTANTS.VERSION }
    match queueEvent s event transport arrivals with
    | (s₁, flushed, .ok ()) => (s₁, flushed, .ok ())
    | (s₁, flushed, .error _) =>
      (s₁, flushed, .error (wrapError "PAGE_VIEW_ERROR"))

/-- AdquimoSDK.trackClick: gate on initialization, build the click
record, normalize it into a generic event with fixed name "click",
enqueue it; flush failures are rethrown as `CLICK_ERROR`. -/
def trackClick (s : SDKState) (element : String) (selector text : Option String)
    (properties : Option (List (String × JSVal)))
    (transport : Nat → TransportOutcome) (arrivals : List Event)
    (now : Int) (freshId : String) :
    SDKState × Bool × Except AdquimoError Unit :=
  if !s.isInitialized then
    (s, false,
      .error (notInitialized "SDK must be initialized before tracking clicks"))
  else
    let clickProperties := properties.getD []
    let mergedProperties := spreadWith
      (.obj (.cons "element" (.str element)
        (.cons "selector" (optStr (TrackingManager.orUndefStr selector))
          (.cons "text" (optStr (TrackingManager.orUndefStr text))
            (.cons "coordinates" .undef .nil)))))
      clickProperties
    let event : Event :=
      { id := freshId
        name := "click"
        category := some "interaction"
        action := some "click"
        label := none
        value := none
        properties := (fieldsOf mergedProperties).toList
        userId := TrackingManager.orUndefStr (UserManager.getUserId s.userMgr)
        sessionId := TrackingManager.orUndefStr (SessionManager.getSessionId s.sessionMgr)
        timestamp := now
        source := "sdk"
        version := ADQUIMO_CONSTANTS.VERSION }
    match queueEvent s event transport arrivals with
    | (s₁, flushed, .ok ()) => (s₁, flushed, .ok ())
    | (s₁, flushed, .error _) =>
      (s₁, flushed, .error (wrapError "CLICK_ERROR"))

/-- AdquimoSDK.identify: gate on initialization, delegate to the
identity store, rethrow failures as `USER_IDENTIFICATION_ERROR`. -/
def identify (s : SDKState) (userId : String)
    (properties : List (String × JSVal)) (now : Int) :
    SDKState × Except AdquimoError Unit :=
  if !s.isInitialized then
    (s, .error (notInitialized "SDK must be initialized before identifying users"))
  else
    match UserManager.identify s.userMgr s.storage userId properties now with
    | (us, st, .ok ()) => ({ s with userMgr := us, storage := st }, .ok ())
    | (us, st, .error _) =>
      ({ s with userMgr := us, storage := st },
        .error (wrapError "USER_IDENTIFICATION_ERROR"))

/-- AdquimoSDK.alias: gate on initialization, delegate to the identity
store, rethrow failures as `USER_ALIAS_ERROR`. -/
def aliasOp (s : SDKState) (anonymousId userId : String) (now : Int) :
    SDKState × Except AdquimoError Unit :=
  if !s.isInitialized then
    (s, .error (notInitialized "SDK must be initialized before aliasing users"))
  else
    match UserManager.aliasUser s.userMgr s.storage anonymousId userId now with
    | (us, st, .ok ()) => ({ s with userMgr := us, storage := st }, .ok ())
    | (us, st, .error _) =>
      ({ s with userMgr := us, storage := st },
        .error (wrapError "USER_ALIAS_ERROR"))

/-- AdquimoSDK.reset: gate on initialization, reset the identity store
and the session store, then discard the whole in-memory queue.  Failures
are rethrown as `RESET_ERROR` (and abort the remaining steps). -/
def reset (s : SDKState) (now : Int) (freshAnonymousId : String) :
    SDKState × Except AdquimoError Unit :=
  if !s.isInitialized then
    (s, .error (notInitialized "SDK must be initialized before resetting"))
  else
    match UserManager.reset s.userMgr s.storage now freshAnonymousId with
    | (us, st, .error _) =>
      ({ s with userMgr := us, storage := st }, .error (wrapError "RESET_ERROR"))
    | (us, st, .ok ()) =>
      match SessionManager.reset s.sessionMgr st now with
      | (ss, st₁, .error _) =>
        ({ s with userMgr := us, sessionMgr := ss, storage := st₁ },
          .error (wrapError "RESET_ERROR"))
      | (ss, st₁, .ok ()) =>
        ({ s with
            userMgr := us, sessionMgr := ss, storage := st₁,
            eventQueue := [] }, .ok ())

/-- AdquimoSDK.getAnalytics: gate on initialization, perform the read
request through the delivery client; a failure envelope is thrown by the
analytics manager and rethrown as `ANALYTICS_ERROR`. -/
def getAnalytics (s : SDKState) (transport : Nat → TransportOutcome) :
    SDKState × Except AdquimoError Unit :=
  if !s.isInitialized then
    (s, .error (notInitialized "SDK must be initialized before getting analytics"))
  else if (NetworkManager.request s.config.retryConfig transport).result.success then
    (s, .ok ())
  else
    (s, .error (wrapError "ANALYTICS_ERROR"))

/-- AdquimoSDK.initialize: bring storage, identity store and session
store up in dependency order, start the periodic flush timer, then mark
the instance initialized.  Any failure is rethrown as
`INITIALIZATION_ERROR` and leaves `isInitialized` untouched.  The source
performs no check against re-invocation. -/
def initSDK (s : SDKState) (device browser location : JSVal) (now : Int)
    (freshUserId freshSessionId : String) :
    SDKState × Except AdquimoError Unit :=
  match UserManager.init s.userMgr s.storage now freshUserId with
  | (us, st, .error _) =>
    ({ s with userMgr := us, storage := st },
      .error (wrapError "INITIALIZATION_ERROR"))
  | (us, st, .ok ()) =>
    match SessionManager.init s.sessionMgr st device browser location now
        freshSessionId with
    | (ss, st₁, .error _) =>
      ({ s with userMgr := us, sessionMgr := ss, storage := st₁ },
        .error (wrapError "INITIALIZATION_ERROR"))
    | (ss, st₁, .ok ()) =>
      ({ s with
          userMgr := us, sessionMgr := ss, storage := st₁,
          flushTimerSet := true, isInitialized := true }, .ok ())

/-- AdquimoSDK.destroy: perform one final `flush`; when it throws, the
catch rethrows `DESTROY_ERROR` and none of the teardown below runs.  On
success: clear the periodic timer, reset `isInitialized`, drop the queue
and the callbacks. -/
def destroy (s : SDKState) (transport : Nat → TransportOutcome)
    (arrivals : List Event) : SDKState × Except AdquimoError Unit :=
  match flush s transport arrivals with
  | (s₁, _, .error _) => (s₁, .error (wrapError "DESTROY_ERROR"))
  | (s₁, _, .ok ()) =>
    ({ s₁ with
        flushTimerSet := false, isInitialized := false,
        eventQueue := [], callbacks := {} }, .ok ())

/-- Sequential driver for the batching property: perform `n` consecutive
awaited `track` calls (no concurrent arrivals) and count how many of
them invoked `flush`. -/
def trackMany (s : SDKState) (n : Nat) (transport : Nat → TransportOutcome)
    (now : Int) (freshId : String) : SDKState × Nat :=
  match n with
  | 0 => (s, 0)
  | n + 1 =>
    match track s "evt" none none none none none transport [] now freshId with
    | (s₁, flushed, _) =>
      match trackMany s₁ n transport now freshId with
      | (s₂, count) => (s₂, (if flushed then 1 else 0) + count)

end AdquimoSDK

/-
Shared concrete fixtures used by the witnesses below.
-/

/-- Empty store with the default `adquimo_` namespace and the default
1 MiB ceiling. -/
def demoStore : StorageState := ⟨"adquimo_", 1024 * 1024, []⟩

/-- Simple event record used as queue content in concrete runs. -/
def sampleEvent (n : String) : Event :=
  { id := n, name := n, category := none, action := none, label := none
    value := none, properties := [], userId := none, sessionId := none
    timestamp := 0, source := "sdk", version := ADQUIMO_CONSTANTS.VERSION }

/-- Coordinator configuration with a small batch size for concrete
batching runs. -/
def demoConfig : SDKConfig :=
  { batchSize := 2, flushInterval := 10000, retryConfig := ⟨3, 100, 1000, 2⟩ }

/-- Coordinator state fixture. -/
def demoSDK (inited : Bool) (queue : List Event) : SDKState :=
  { config := demoConfig, isInitialized := inited, flushTimerSet := inited
    callbacks := {}, eventQueue := queue, storage := demoStore
    userMgr := ⟨none⟩, sessionMgr := ⟨none, none⟩ }

/-- Transport that rejects every attempt (permanent network failure). -/
def failingTransport : Nat → TransportOutcome := fun _ => .fail "network down"

/-- Transport that resolves every attempt with HTTP 200. -/
def okTransport : Nat → TransportOutcome := fun _ => .response 200

/-
General helper lemmas about the object model.
-/

/-- Reading any key through `objGet` agrees with reading the field
list (`fieldsOf`), including on non-objects (both give `undefined`). -/
theorem objGet_eq_fieldsOf_get (v : JSVal) (key : String) :
    objGet v key = (fieldsOf v).get key := by
  cases v <;> rfl

/-- Overriding one key does not change the reading of another. -/
theorem JSFields.get_setField_ne :
    ∀ (f : JSFields) (k key : String) (v : JSVal), k ≠ key →
      (f.setField key v).get k = f.get k
  | .nil, k, key, v, h => by
    simp [JSFields.setField, JSFields.get]
    intro hk
    exact absurd hk.symm h
  | .cons k' w rest, k, key, v, h => by
    by_cases hk : k' = key
    · subst hk
      have hk' : ¬(k' = k) := fun hh => h hh.symm
      simp [JSFields.setField, JSFields.get, hk']
    · simp only [JSFields.setField, if_neg hk, JSFields.get]
      by_cases hk2 : k' = k
      · simp [hk2]
      · simp [hk2, JSFields.get_setField_ne rest k key v h]

/-- Overriding a key makes it read back the new value. -/
theorem JSFields.get_setField_self :
    ∀ (f : JSFields) (key : String) (v : JSVal),
      (f.setField key v).get key = v
  | .nil, key, v => by simp [JSFields.setField, JSFields.get]
  | .cons k' w rest, key, v => by
    by_cases hk : k' = key
    · simp [JSFields.setField, JSFields.get, hk]
    · simp [JSFields.setField, JSFields.get, hk,
        JSFields.get_setField_self rest key v]

/-- Deleting a key from the backend removes every binding of it. -/
theorem StorageManager.lookupData_deleteData (data : List (String × JSVal))
    (key : String) : StorageManager.lookupData (StorageManager.deleteData data key) key = none := by
  induction data with
  | nil => rfl
  | cons kv rest ih =>
    obtain ⟨k, v⟩ := kv
    by_cases hk : k = key
    · simp [StorageManager.deleteData, hk, ih]
    · simp [StorageManager.deleteData, StorageManager.lookupData, hk, ih]

/-
Claim theorems.
-/

/-- C1: the claim says `createEvent` validates the event name against
`[A-Za-z0-9_-]+` and the property map before returning, raising
`ValidationError` on every invalid input so that no record is produced.
In the source the validation block is commented out ("Skip validation
for now to fix tests"), so `createEvent` returns a well-formed `ok`
record even for an input the specification classifies as invalid (name
with a space and a bang, property key with a space, object-typed
property value): no `ValidationError` is ever raised. -/
theorem c1_createEvent_skips_validation :
    specValidEventInput
      { name := "bad name!"
        properties := some [("bad key", JSVal.obj .nil)] } = false ∧
    TrackingManager.createEvent
      { name := "bad name!"
        properties := some [("bad key", JSVal.obj .nil)] }
      (some "user-1") (some "sess-1") 42 "evt-1"
      = .ok
        { id := "evt-1", name := "bad name!", category := none, action := none
          label := none, value := none
          properties := [("bad key", JSVal.obj .nil)]
          userId := some "user-1", sessionId := some "sess-1", timestamp := 42
          source := "sdk", version := "1.0.0" } := by
  exact ⟨by decide, rfl⟩

/-- C2 counterexample: the claim says a response with a non-success
HTTP status is retried exactly like a thrown transport error.  With
`maxRetries = 3` and a transport that resolves every attempt with HTTP
500, `request` performs a single attempt, sleeps no backoff delay, and
returns the `HTTP_ERROR` envelope immediately — whereas the same policy
applied to a throwing transport performs 4 attempts (see the C3
theorem), so the two failure kinds are not treated the same. -/
theorem c2_http_error_not_retried :
    NetworkManager.request ⟨3, 100, 1000, 2⟩ (fun _ => .response 500)
      = { result := { success := false
                      error := some ⟨"HTTP_ERROR", "HTTP 500"⟩ }
          attempts := 1, delays := [] } ∧
    (NetworkManager.request ⟨3, 100, 1000, 2⟩ failingTransport).attempts = 4 := by
  exact ⟨rfl, rfl⟩

/-- C2 amended: only a thrown transport error is retried under the
retry policy; a resolved response — whatever its HTTP status — is
returned from the attempt on which it occurs (converted by
`handleResponse` into a failure envelope with an `HTTP_ERROR` when the
status is outside the success range), with no further attempts and no
backoff delay. -/
theorem c2_response_returned_immediately :
    (∀ (rc : RetryConfig) (transport : Nat → TransportOutcome) (status : Nat),
      transport 0 = .response status →
      NetworkManager.request rc transport =
        { result := NetworkManager.handleResponse status
          attempts := 1, delays := [] }) ∧
    (∀ status : Nat, responseOk status = false →
      NetworkManager.handleResponse status =
        { success := false
          error := some ⟨"HTTP_ERROR", "HTTP " ++ toString status⟩ }) := by
  constructor
  · intro rc transport status h
    unfold NetworkManager.request NetworkManager.requestAux
    rw [h]
  · intro status h
    unfold NetworkManager.handleResponse
    rw [h]
    simp

/-- C2 witness: the amended statement applied to the 500-serving
transport under the C3 policy. -/
theorem c2_response_returned_immediately_witness :
    NetworkManager.request ⟨3, 100, 1000, 2⟩ (fun _ => .response 500) =
      { result := NetworkManager.handleResponse 500, attempts := 1, delays := [] } ∧
    NetworkManager.handleResponse 500 =
      { success := false, error := some ⟨"HTTP_ERROR", "HTTP 500"⟩ } :=
  ⟨c2_response_returned_immediately.1 ⟨3, 100, 1000, 2⟩ (fun _ => .response 500) 500 rfl,
    c2_response_returned_immediately.2 500 rfl⟩

/-- Attempt loop on a permanently-rejecting transport: starting at
`attempt` with `remaining` retries left, it performs `remaining + 1`
further attempts, sleeping `calculateDelay k` after each non-final
attempt `k`, and ends in a failure envelope. -/
theorem requestAux_allFail (rc : RetryConfig) (transport : Nat → TransportOutcome)
    (h : ∀ k, (transport k).isFail = true) :
    ∀ (remaining attempt : Nat) (delays : List Nat),
      (NetworkManager.requestAux rc transport attempt remaining delays).attempts
          = attempt + remaining + 1 ∧
      (NetworkManager.requestAux rc transport attempt remaining delays).delays
          = delays ++ (List.range' attempt remaining).map
              (fun k => NetworkManager.calculateDelay k rc) ∧
      (NetworkManager.requestAux rc transport attempt remaining delays).result.success
          = false := by
  intro remaining
  induction remaining with
  | zero =>
    intro attempt delays
    cases htr : transport attempt with
    | response status =>
      exact absurd (h attempt) (by simp [htr, TransportOutcome.isFail])
    | fail msg =>
      simp [NetworkManager.requestAux, htr, NetworkManager.createErrorResponse]
  | succ r ih =>
    intro attempt delays
    cases htr : transport attempt with
    | response status =>
      exact absurd (h attempt) (by simp [htr, TransportOutcome.isFail])
    | fail msg =>
      have step :
          NetworkManager.requestAux rc transport attempt (r + 1) delays =
            NetworkManager.requestAux rc transport (attempt + 1) r
              (delays ++ [NetworkManager.calculateDelay attempt rc]) := by
        conv_lhs => rw [NetworkManager.requestAux.eq_def]
        rw [htr]
      obtain ⟨ha, hd, hs⟩ := ih (attempt + 1)
        (delays ++ [NetworkManager.calculateDelay attempt rc])
      refine ⟨?_, ?_, ?_⟩
      · rw [step, ha]; omega
      · rw [step, hd, List.range'_succ]
        simp
      · rw [step]; exact hs

/-- C3: against a transport that fails on every attempt, `request`
performs exactly `maxRetries + 1` attempts; attempt `k` (0-indexed,
non-final) is followed by a backoff sleep of
`min(initialDelay * backoffMultiplier ^ k, maxDelay)` and the final
attempt is followed by no delay and no retry.  Instantiated at
`maxRetries = 3, initialDelay = 100, backoffMultiplier = 2,
maxDelay = 1000`: exactly 4 attempts with delays 100ms, 200ms, 400ms. -/
theorem c3_backoff_schedule :
    (∀ (rc : RetryConfig) (transport : Nat → TransportOutcome),
      (∀ k, (transport k).isFail = true) →
      (NetworkManager.request rc transport).attempts = rc.maxRetries + 1 ∧
      (NetworkManager.request rc transport).delays =
        (List.range rc.maxRetries).map
          (fun k => NetworkManager.calculateDelay k rc) ∧
      (NetworkManager.request rc transport).result.success = false) ∧
    NetworkManager.request ⟨3, 100, 1000, 2⟩ failingTransport =
      { result := NetworkManager.createErrorResponse "network down"
        attempts := 4, delays := [100, 200, 400] } := by
  constructor
  · intro rc transport h
    obtain ⟨ha, hd, hs⟩ := requestAux_allFail rc transport h rc.maxRetries 0 []
    refine ⟨?_, ?_, hs⟩
    · rw [NetworkManager.request, ha]; omega
    · rw [NetworkManager.request, hd, List.range_eq_range']
      simp
  · rfl

/-- Unfolding of a failing `flush` on a non-empty queue: the drained
events are unshifted back onto the front of the repopulated queue,
nothing is delivered, and a `FLUSH_ERROR` is thrown. -/
theorem flush_failure_eq (s : SDKState) (t : Nat → TransportOutcome)
    (a : List Event) (hne : s.eventQueue ≠ [])
    (hfail : (NetworkManager.sendBatch s.config.retryConfig t).result.success = false) :
    AdquimoSDK.flush s t a =
      ({ s with eventQueue := s.eventQueue ++ a }, [],
        .error (AdquimoSDK.wrapError "FLUSH_ERROR")) := by
  simp [AdquimoSDK.flush, List.isEmpty_iff, hne, hfail]

/-- Unfolding of a successful `flush` on a non-empty queue: the drained
events are delivered and discarded; the repopulated queue remains. -/
theorem flush_success_eq (s : SDKState) (t : Nat → TransportOutcome)
    (a : List Event) (hne : s.eventQueue ≠ [])
    (hok : (NetworkManager.sendBatch s.config.retryConfig t).result.success = true) :
    AdquimoSDK.flush s t a =
      ({ s with eventQueue := a }, s.eventQueue, .ok ()) := by
  simp [AdquimoSDK.flush, List.isEmpty_iff, hne, hok]

/-- C4: when `flush` drains a non-empty queue and delivery fails, the
exact drained events are restored to the front of the since-repopulated
queue in their original order; a second `flush` whose delivery succeeds
then delivers exactly those events, and across the two flushes every
event (original queue content plus both rounds of concurrent arrivals)
is accounted for exactly once — no loss, no duplication. -/
theorem c4_flush_requeues_and_redelivers
    (s : SDKState) (t₁ t₂ : Nat → TransportOutcome) (a₁ a₂ : List Event)
    (hne : s.eventQueue ≠ [])
    (hfail : (NetworkManager.sendBatch s.config.retryConfig t₁).result.success = false)
    (hok : (NetworkManager.sendBatch s.config.retryConfig t₂).result.success = true) :
    (AdquimoSDK.flush s t₁ a₁).1.eventQueue = s.eventQueue ++ a₁ ∧
    (AdquimoSDK.flush s t₁ a₁).2.1 = [] ∧
    (AdquimoSDK.flush s t₁ a₁).2.2 =
      .error (AdquimoSDK.wrapError "FLUSH_ERROR") ∧
    (AdquimoSDK.flush (AdquimoSDK.flush s t₁ a₁).1 t₂ a₂).2.1
      = s.eventQueue ++ a₁ ∧
    (AdquimoSDK.flush (AdquimoSDK.flush s t₁ a₁).1 t₂ a₂).1.eventQueue = a₂ ∧
    (AdquimoSDK.flush s t₁ a₁).2.1
        ++ (AdquimoSDK.flush (AdquimoSDK.flush s t₁ a₁).1 t₂ a₂).2.1
        ++ (AdquimoSDK.flush (AdquimoSDK.flush s t₁ a₁).1 t₂ a₂).1.eventQueue
      = s.eventQueue ++ a₁ ++ a₂ := by
  have h1 := flush_failure_eq s t₁ a₁ hne hfail
  have hne₁ : ({ s with eventQueue := s.eventQueue ++ a₁ } : SDKState).eventQueue ≠ [] := by
    simp [hne]
  have h2 := flush_success_eq { s with eventQueue := s.eventQueue ++ a₁ } t₂ a₂ hne₁ hok
  rw [h1]
  rw [h2]
  simp

/-- C4 witness: a one-event queue, a failing first delivery with one
concurrent arrival, then a succeeding second delivery. -/
theorem c4_flush_requeues_and_redelivers_witness :
    (AdquimoSDK.flush (demoSDK true [sampleEvent "e1"]) failingTransport
        [sampleEvent "e2"]).1.eventQueue
      = (demoSDK true [sampleEvent "e1"]).eventQueue ++ [sampleEvent "e2"] ∧
    (AdquimoSDK.flush (demoSDK true [sampleEvent "e1"]) failingTransport
        [sampleEvent "e2"]).2.1 = [] ∧
    (AdquimoSDK.flush (demoSDK true [sampleEvent "e1"]) failingTransport
        [sampleEvent "e2"]).2.2 = .error (AdquimoSDK.wrapError "FLUSH_ERROR") ∧
    (AdquimoSDK.flush (AdquimoSDK.flush (demoSDK true [sampleEvent "e1"])
        failingTransport [sampleEvent "e2"]).1 okTransport []).2.1
      = (demoSDK true [sampleEvent "e1"]).eventQueue ++ [sampleEvent "e2"] ∧
    (AdquimoSDK.flush (AdquimoSDK.flush (demoSDK true [sampleEvent "e1"])
        failingTransport [sampleEvent "e2"]).1 okTransport []).1.eventQueue = [] ∧
    (AdquimoSDK.flush (demoSDK true [sampleEvent "e1"]) failingTransport
        [sampleEvent "e2"]).2.1
      ++ (AdquimoSDK.flush (AdquimoSDK.flush (demoSDK true [sampleEvent "e1"])
          failingTransport [sampleEvent "e2"]).1 okTransport []).2.1
      ++ (AdquimoSDK.flush (AdquimoSDK.flush (demoSDK true [sampleEvent "e1"])
          failingTransport [sampleEvent "e2"]).1 okTransport []).1.eventQueue
      = (demoSDK true [sampleEvent "e1"]).eventQueue ++ [sampleEvent "e2"] ++ [] :=
  c4_flush_requeues_and_redelivers (demoSDK true [sampleEvent "e1"])
    failingTransport okTransport [sampleEvent "e2"] []
    (by simp [demoSDK]) rfl rfl

/-- C5 counterexample: the claim states that `flush` (among the listed
operations) fails with a NotInitialized error whenever the coordinator
is not Ready.  On a never-initialized coordinator holding one queued
event, `flush` performs no state check at all: it succeeds and even
delivers the queued event. -/
theorem c5_flush_without_init_succeeds :
    (demoSDK false [sampleEvent "e1"]).isInitialized = false ∧
    (demoSDK false [sampleEvent "e1"]).eventQueue ≠ [] ∧
    (AdquimoSDK.flush (demoSDK false [sampleEvent "e1"]) okTransport []).2.2
      = .ok () ∧
    (AdquimoSDK.flush (demoSDK false [sampleEvent "e1"]) okTransport []).2.1
      = [sampleEvent "e1"] := by
  refine ⟨rfl, by simp [demoSDK], rfl, rfl⟩

/-- C5 amended: the guarded operations — track, trackPageView,
trackClick, identify, alias, reset, getAnalytics — fail with
`SDK_NOT_INITIALIZED` whenever the coordinator is not initialized;
`flush` performs no initialization check (it either succeeds or fails
with `FLUSH_ERROR`, regardless of lifecycle state); and `destroy` merely
clears the initialized flag — there is no distinct terminal state — but
a full lifecycle (initialize, destroy, initialize) still cannot return
the coordinator to Ready, because re-initialization trips over the
previously persisted session and fails with `INITIALIZATION_ERROR`. -/
theorem c5_gating :
    (∀ (s : SDKState) name props cat act lab val t a now fid,
      s.isInitialized = false →
      (AdquimoSDK.track s name props cat act lab val t a now fid).2.2 =
        .error (AdquimoSDK.notInitialized
          "SDK must be initialized before tracking events")) ∧
    (∀ (s : SDKState) url title referrer props t a now fid,
      s.isInitialized = false →
      (AdquimoSDK.trackPageView s url title referrer props t a now fid).2.2 =
        .error (AdquimoSDK.notInitialized
          "SDK must be initialized before tracking page views")) ∧
    (∀ (s : SDKState) element selector text props t a now fid,
      s.isInitialized = false →
      (AdquimoSDK.trackClick s element selector text props t a now fid).2.2 =
        .error (AdquimoSDK.notInitialized
          "SDK must be initialized before tracking clicks")) ∧
    (∀ (s : SDKState) userId props now,
      s.isInitialized = false →
      (AdquimoSDK.identify s userId props now).2 =
        .error (AdquimoSDK.notInitialized
          "SDK must be initialized before identifying users")) ∧
    (∀ (s : SDKState) anonymousId userId now,
      s.isInitialized = false →
      (AdquimoSDK.aliasOp s anonymousId userId now).2 =
        .error (AdquimoSDK.notInitialized
          "SDK must be initialized before aliasing users")) ∧
    (∀ (s : SDKState) now fid,
      s.isInitialized = false →
      (AdquimoSDK.reset s now fid).2 =
        .error (AdquimoSDK.notInitialized
          "SDK must be initialized before resetting")) ∧
    (∀ (s : SDKState) t,
      s.isInitialized = false →
      (AdquimoSDK.getAnalytics s t).2 =
        .error (AdquimoSDK.notInitialized
          "SDK must be initialized before getting analytics")) ∧
    (∀ (s : SDKState) t a,
      (AdquimoSDK.flush s t a).2.2 = .ok () ∨
      (AdquimoSDK.flush s t a).2.2 =
        .error (AdquimoSDK.wrapError "FLUSH_ERROR")) ∧
    ((AdquimoSDK.initSDK (demoSDK false []) .undef .undef .undef 0 "u-1" "s-1").2
        = .ok () ∧
      (AdquimoSDK.initSDK (demoSDK false []) .undef .undef .undef 0 "u-1"
          "s-1").1.isInitialized = true ∧
      (AdquimoSDK.destroy (AdquimoSDK.initSDK (demoSDK false []) .undef .undef
          .undef 0 "u-1" "s-1").1 okTransport []).2 = .ok () ∧
      (AdquimoSDK.destroy (AdquimoSDK.initSDK (demoSDK false []) .undef .undef
          .undef 0 "u-1" "s-1").1 okTransport []).1.isInitialized = false ∧
      (AdquimoSDK.initSDK (AdquimoSDK.destroy (AdquimoSDK.initSDK
          (demoSDK false []) .undef .undef .undef 0 "u-1" "s-1").1 okTransport
          []).1 .undef .undef .undef 1000 "u-2" "s-2").2
        = .error (AdquimoSDK.wrapError "INITIALIZATION_ERROR") ∧
      (AdquimoSDK.initSDK (AdquimoSDK.destroy (AdquimoSDK.initSDK
          (demoSDK false []) .undef .undef .undef 0 "u-1" "s-1").1 okTransport
          []).1 .undef .undef .undef 1000 "u-2" "s-2").1.isInitialized
        = false) := by
  refine ⟨?_, ?_, ?_, ?_, ?_, ?_, ?_, ?_,
    rfl, rfl, rfl, rfl, rfl, rfl⟩
  · intro s name props cat act lab val t a now fid h
    simp [AdquimoSDK.track, h]
  · intro s url title referrer props t a now fid h
    simp [AdquimoSDK.trackPageView, h]
  · intro s element selector text props t a now fid h
    simp [AdquimoSDK.trackClick, h]
  · intro s userId props now h
    simp [AdquimoSDK.identify, h]
  · intro s anonymousId userId now h
    simp [AdquimoSDK.aliasOp, h]
  · intro s now fid h
    simp [AdquimoSDK.reset, h]
  · intro s t h
    simp [AdquimoSDK.getAnalytics, h]
  · intro s t a
    by_cases hq : s.eventQueue = []
    · left
      simp [AdquimoSDK.flush, hq]
    · by_cases hs :
        (NetworkManager.sendBatch s.config.retryConfig t).result.success = true
      · left
        rw [flush_success_eq s t a hq hs]
      · right
        rw [flush_failure_eq s t a hq (by simpa using hs)]

/-- C5 witness: the track gate applied to a concrete uninitialized
coordinator, and its flush dichotomy applied there as well. -/
theorem c5_gating_witness :
    (AdquimoSDK.track (demoSDK false []) "evt" none none none none none
        okTransport [] 0 "e").2.2 =
      .error (AdquimoSDK.notInitialized
        "SDK must be initialized before tracking events") ∧
    ((AdquimoSDK.flush (demoSDK false [sampleEvent "e1"]) okTransport []).2.2
        = .ok () ∨
      (AdquimoSDK.flush (demoSDK false [sampleEvent "e1"]) okTransport []).2.2
        = .error (AdquimoSDK.wrapError "FLUSH_ERROR")) :=
  ⟨c5_gating.1 (demoSDK false []) "evt" none none none none none
      okTransport [] 0 "e" rfl,
    c5_gating.2.2.2.2.2.2.2.1 (demoSDK false [sampleEvent "e1"]) okTransport []⟩

/-- C7: the claim says a persisted session younger than 30 minutes is
resumed unchanged and an older one is replaced with a fresh session.  In
the source, a session read back from storage has its `startTime`
deserialized as an ISO string; `isSessionValid` calls `.getTime()` on
it, which is a TypeError, so `initialize()` throws `SESSION_INIT_ERROR`
for every persisted session — it neither resumes a young session (here
10 minutes old) nor replaces an old one (here 31 minutes old). -/
theorem c7_session_resume_throws :
    (SessionManager.init ⟨none, none⟩ demoStore .undef .undef .undef 0
        "sid-1").2.2 = .ok () ∧
    (SessionManager.init ⟨none, none⟩
        (SessionManager.init ⟨none, none⟩ demoStore .undef .undef .undef 0
          "sid-1").2.1 .undef .undef .undef 600000 "sid-2").2.2
      = .error ⟨"SESSION_INIT_ERROR",
          "session.startTime.getTime is not a function"⟩ ∧
    (SessionManager.init ⟨none, none⟩
        (SessionManager.init ⟨none, none⟩ demoStore .undef .undef .undef 0
          "sid-1").2.1 .undef .undef .undef 1860000 "sid-2").2.2
      = .error ⟨"SESSION_INIT_ERROR",
          "session.startTime.getTime is not a function"⟩ := by
  exact ⟨rfl, rfl, rfl⟩

/-- C8: the claim says `set(key, v, ttl)` followed immediately by
`get(key)` returns `v`, with expiry only after the ttl elapses.  In the
source, whenever the stored item carries a truthy ttl, `get` evaluates
`item.timestamp.getTime()` on the deserialized (string) timestamp and
throws `STORAGE_GET_ERROR` — even zero milliseconds after the `set`.
The same round trip without a ttl returns `v`, isolating the failure to
the TTL branch. -/
theorem c8_ttl_roundtrip_throws :
    ((StorageManager.set demoStore "key" (.str "v") (some 1000) 0).bind
        fun st => StorageManager.get st "key" 0)
      = .error ⟨"STORAGE_GET_ERROR",
          "item.timestamp.getTime is not a function"⟩ ∧
    ((StorageManager.set demoStore "key" (.str "v") none 0).bind
        fun st => (StorageManager.get st "key" 0).map Prod.fst)
      = .ok (some (.str "v")) := by
  exact ⟨rfl, rfl⟩

/-- Event record built by a `track s "evt" none none none none none`
call: the factory echoes the fields and snapshots the identity/session
ids. -/
def trackedEvent (s : SDKState) (now : Int) (fid : String) : Event :=
  { id := fid, name := "evt", category := none, action := none, label := none
    value := none, properties := []
    userId := TrackingManager.orUndefStr (UserManager.getUserId s.userMgr)
    sessionId := TrackingManager.orUndefStr (SessionManager.getSessionId s.sessionMgr)
    timestamp := now, source := "sdk", version := ADQUIMO_CONSTANTS.VERSION }

/-- A `track` call that leaves the queue strictly below `batchSize`
only enqueues: no flush is invoked. -/
theorem track_no_flush_eq (s : SDKState) (t : Nat → TransportOutcome)
    (now : Int) (fid : String)
    (hinit : s.isInitialized = true)
    (hlt : s.eventQueue.length + 1 < s.config.batchSize) :
    AdquimoSDK.track s "evt" none none none none none t [] now fid =
      ({ s with eventQueue := s.eventQueue ++ [trackedEvent s now fid] },
        false, .ok ()) := by
  have hcond : ¬(s.config.batchSize ≤ s.eventQueue.length + 1) := by omega
  simp [AdquimoSDK.track, AdquimoSDK.queueEvent, TrackingManager.createEvent,
    AdquimoSDK.orUndefNum, TrackingManager.orUndefStr, trackedEvent, hinit, hcond]

/-- A `track` call that brings the queue up to `batchSize` invokes
`flush`, and a successful delivery leaves the queue empty before the
call returns. -/
theorem track_flush_eq (s : SDKState) (t : Nat → TransportOutcome)
    (now : Int) (fid : String)
    (hinit : s.isInitialized = true)
    (hge : s.config.batchSize ≤ s.eventQueue.length + 1)
    (hok : (NetworkManager.sendBatch s.config.retryConfig t).result.success = true) :
    AdquimoSDK.track s "evt" none none none none none t [] now fid =
      ({ s with eventQueue := [] }, true, .ok ()) := by
  simp [AdquimoSDK.track, AdquimoSDK.queueEvent, TrackingManager.createEvent,
    AdquimoSDK.orUndefNum, TrackingManager.orUndefStr, AdquimoSDK.flush,
    trackedEvent, hinit, hge, hok]

/-- A run of consecutive tracks that never reaches `batchSize` performs
no flush and grows the queue one event per call. -/
theorem trackMany_no_flush :
    ∀ (k : Nat) (s : SDKState) (t : Nat → TransportOutcome) (now : Int)
      (fid : String),
      s.isInitialized = true →
      s.eventQueue.length + k < s.config.batchSize →
      (AdquimoSDK.trackMany s k t now fid).2 = 0 ∧
      (AdquimoSDK.trackMany s k t now fid).1.eventQueue.length
        = s.eventQueue.length + k ∧
      (AdquimoSDK.trackMany s k t now fid).1.config = s.config ∧
      (AdquimoSDK.trackMany s k t now fid).1.isInitialized = true := by
  intro k
  induction k with
  | zero =>
    intro s t now fid hinit _
    exact ⟨rfl, rfl, rfl, hinit⟩
  | succ k ih =>
    intro s t now fid hinit hlt
    have hstep := track_no_flush_eq s t now fid hinit (by omega)
    have hqlen :
        ({ s with eventQueue := s.eventQueue ++ [trackedEvent s now fid] }
          : SDKState).eventQueue.length = s.eventQueue.length + 1 := by
      simp
    obtain ⟨hc, hl, hcfg, hini⟩ :=
      ih { s with eventQueue := s.eventQueue ++ [trackedEvent s now fid] }
        t now fid hinit (by simp; omega)
    simp only [AdquimoSDK.trackMany]
    rw [hstep]
    refine ⟨by simpa using hc, ?_, hcfg, hini⟩
    rw [hl, hqlen]
    omega

/-- A run of consecutive tracks whose last call exactly reaches
`batchSize` performs exactly one flush (at that last call), and the
successful delivery leaves the queue empty when the run returns. -/
theorem trackMany_last_flush :
    ∀ (k : Nat) (s : SDKState) (t : Nat → TransportOutcome) (now : Int)
      (fid : String),
      1 ≤ k →
      s.isInitialized = true →
      s.eventQueue.length + k = s.config.batchSize →
      (NetworkManager.sendBatch s.config.retryConfig t).result.success = true →
      (AdquimoSDK.trackMany s k t now fid).2 = 1 ∧
      (AdquimoSDK.trackMany s k t now fid).1.eventQueue = [] := by
  intro k
  induction k with
  | zero => intro s t now fid h1; omega
  | succ k ih =>
    intro s t now fid _ hinit hsum hok
    cases k with
    | zero =>
      have hstep := track_flush_eq s t now fid hinit (by omega) hok
      simp only [AdquimoSDK.trackMany]
      rw [hstep]
      exact ⟨rfl, rfl⟩
    | succ j =>
      have hstep := track_no_flush_eq s t now fid hinit (by omega)
      have hqlen :
          ({ s with eventQueue := s.eventQueue ++ [trackedEvent s now fid] }
            : SDKState).eventQueue.length = s.eventQueue.length + 1 := by
        simp
      obtain ⟨hc, hq⟩ :=
        ih { s with eventQueue := s.eventQueue ++ [trackedEvent s now fid] }
          t now fid (by omega) hinit (by simp; omega) hok
      simp only [AdquimoSDK.trackMany]
      rw [hstep]
      exact ⟨by simpa using hc, hq⟩

/-- C6: starting from an empty queue on an initialized coordinator with
`batchSize = b ≥ 1` and a delivery that succeeds, the first `b - 1`
awaited `track` calls trigger no flush; across the first `b` calls
exactly one flush is invoked — at the moment the queue length reaches
`b` — and it completes (queue drained to empty) before the call
returns, so a `(b+1)`-th `track` call starts from the flushed queue. -/
theorem c6_batch_threshold_single_flush
    (s₀ : SDKState) (t : Nat → TransportOutcome) (now : Int) (fid : String)
    (hb : 1 ≤ s₀.config.batchSize)
    (hinit : s₀.isInitialized = true)
    (hq : s₀.eventQueue = [])
    (hok : (NetworkManager.sendBatch s₀.config.retryConfig t).result.success = true) :
    (AdquimoSDK.trackMany s₀ (s₀.config.batchSize - 1) t now fid).2 = 0 ∧
    (AdquimoSDK.trackMany s₀ s₀.config.batchSize t now fid).2 = 1 ∧
    (AdquimoSDK.trackMany s₀ s₀.config.batchSize t now fid).1.eventQueue = [] := by
  have hlen : s₀.eventQueue.length = 0 := by rw [hq]; rfl
  obtain ⟨hc0, _, _, _⟩ :=
    trackMany_no_flush (s₀.config.batchSize - 1) s₀ t now fid hinit (by omega)
  obtain ⟨hc1, hq1⟩ :=
    trackMany_last_flush s₀.config.batchSize s₀ t now fid hb hinit (by omega) hok
  exact ⟨hc0, hc1, hq1⟩

/-- C6 witness: the batching property on a concrete coordinator with
`batchSize = 2` and an always-succeeding transport. -/
theorem c6_batch_threshold_single_flush_witness :
    (AdquimoSDK.trackMany (demoSDK true [])
        ((demoSDK true []).config.batchSize - 1) okTransport 0 "e").2 = 0 ∧
    (AdquimoSDK.trackMany (demoSDK true [])
        (demoSDK true []).config.batchSize okTransport 0 "e").2 = 1 ∧
    (AdquimoSDK.trackMany (demoSDK true [])
        (demoSDK true []).config.batchSize okTransport 0 "e").1.eventQueue = [] :=
  c6_batch_threshold_single_flush (demoSDK true []) okTransport 0 "e"
    (by decide) rfl rfl rfl

/-- C9: behaviour of `alias`.  Without a stored record under the
synthetic `anonymous_<id>` key the operation fails with the not-found
error and changes nothing.  With such a record present, the operation
succeeds: the resulting current user is the anonymous record re-keyed
under `userId` (its `id` is the new user id, its `properties` and
`createdAt` are retained) and the anonymous record is gone from
storage. -/
theorem c9_alias_rekeys_anonymous_record :
    (∀ (us : UserState) (st : StorageState) (aid uid : String) (now : Int),
      aid ≠ "" → uid ≠ "" →
      StorageManager.lookupData st.data
        (StorageManager.getFullKey st ("anonymous_" ++ aid)) = none →
      UserManager.aliasUser us st aid uid now =
        (us, st, .error ⟨"USER_ALIAS_ERROR", "Anonymous user not found"⟩)) ∧
    (∀ (us : UserState) (st : StorageState) (aid uid : String) (now : Int)
      (anonymousUser : JSVal),
      aid ≠ "" → uid ≠ "" →
      StorageManager.get st ("anonymous_" ++ aid) now
        = .ok (some anonymousUser, st) →
      (∃ st₁, StorageManager.set st ADQUIMO_CONSTANTS.STORAGE_KEYS_USER_ID
        (spreadWith anonymousUser [("id", .str uid), ("lastSeenAt", .date now)])
        none now = .ok st₁) →
      (UserManager.aliasUser us st aid uid now).2.2 = .ok () ∧
      (UserManager.aliasUser us st aid uid now).1.currentUser
        = some (spreadWith anonymousUser
            [("id", .str uid), ("lastSeenAt", .date now)]) ∧
      objGet (spreadWith anonymousUser
          [("id", .str uid), ("lastSeenAt", .date now)]) "id" = .str uid ∧
      objGet (spreadWith anonymousUser
          [("id", .str uid), ("lastSeenAt", .date now)]) "properties"
        = objGet anonymousUser "properties" ∧
      objGet (spreadWith anonymousUser
          [("id", .str uid), ("lastSeenAt", .date now)]) "createdAt"
        = objGet anonymousUser "createdAt" ∧
      StorageManager.lookupData (UserManager.aliasUser us st aid uid now).2.1.data
        (StorageManager.getFullKey st ("anonymous_" ++ aid)) = none) := by
  constructor
  · intro us st aid uid now haid huid hlook
    simp [UserManager.aliasUser, StorageManager.get, hlook, haid, huid]
  · intro us st aid uid now anonymousUser haid huid hget hset
    obtain ⟨st₁, hset⟩ := hset
    have hpref : st₁.pref = st.pref := by
      simp only [StorageManager.set] at hset
      split at hset
      · exact absurd hset (by simp)
      · cases hset
        rfl
    have halias :
        UserManager.aliasUser us st aid uid now =
          ({ currentUser := some (spreadWith anonymousUser
              [("id", .str uid), ("lastSeenAt", .date now)]) },
            StorageManager.remove st₁ ("anonymous_" ++ aid), .ok ()) := by
      unfold UserManager.aliasUser
      rw [if_neg (by simp [haid, huid])]
      simp only [hget, hset]
    rw [halias]
    refine ⟨rfl, rfl, ?_, ?_, ?_, ?_⟩
    · simp [spreadWith, objGet]
      rw [JSFields.get_setField_ne _ _ _ _ (by decide)]
      exact JSFields.get_setField_self ..
    · simp [spreadWith]
      rw [objGet_eq_fieldsOf_get anonymousUser]
      simp [objGet]
      rw [JSFields.get_setField_ne _ _ _ _ (by decide),
        JSFields.get_setField_ne _ _ _ _ (by decide)]
    · simp [spreadWith]
      rw [objGet_eq_fieldsOf_get anonymousUser]
      simp [objGet]
      rw [JSFields.get_setField_ne _ _ _ _ (by decide),
        JSFields.get_setField_ne _ _ _ _ (by decide)]
    · show StorageManager.lookupData
        (StorageManager.deleteData st₁.data
          (StorageManager.getFullKey st₁ ("anonymous_" ++ aid))) _ = none
      rw [show StorageManager.getFullKey st ("anonymous_" ++ aid)
          = StorageManager.getFullKey st₁ ("anonymous_" ++ aid) by
        simp [StorageManager.getFullKey, hpref]]
      exact StorageManager.lookupData_deleteData ..

/-- Anonymous record fixture persisted under `anonymous_anon-1` (as the
store would hold it after a `set` without ttl). -/
def anonSeededStore : StorageState :=
  ⟨"adquimo_", 1024 * 1024,
    [("adquimo_anonymous_anon-1",
      jsonRoundtrip (StorageManager.storageItem "adquimo_anonymous_anon-1"
        (UserManager.mkUser "anon-1" [("plan", .str "free")] 0 0) 0 none))]⟩

/-- C9 witness: the not-found case on an empty store and the success
case on the seeded store, at concrete ids and time. -/
theorem c9_alias_rekeys_anonymous_record_witness :
    UserManager.aliasUser ⟨none⟩ demoStore "anon-1" "user-1" 5 =
      (⟨none⟩, demoStore,
        .error ⟨"USER_ALIAS_ERROR", "Anonymous user not found"⟩) ∧
    (UserManager.aliasUser ⟨none⟩ anonSeededStore "anon-1" "user-1" 5).2.2
      = .ok () ∧
    objGet (spreadWith
        (jsonRoundtrip (UserManager.mkUser "anon-1" [("plan", .str "free")] 0 0))
        [("id", .str "user-1"), ("lastSeenAt", .date 5)]) "id" = .str "user-1" ∧
    StorageManager.lookupData
      (UserManager.aliasUser ⟨none⟩ anonSeededStore "anon-1" "user-1" 5).2.1.data
      (StorageManager.getFullKey anonSeededStore ("anonymous_" ++ "anon-1"))
      = none := by
  have h₁ := c9_alias_rekeys_anonymous_record.1 ⟨none⟩ demoStore "anon-1"
    "user-1" 5 (by decide) (by decide) rfl
  have h₂ := c9_alias_rekeys_anonymous_record.2 ⟨none⟩ anonSeededStore "anon-1"
    "user-1" 5
    (jsonRoundtrip (UserManager.mkUser "anon-1" [("plan", .str "free")] 0 0))
    (by decide) (by decide) rfl ⟨_, rfl⟩
  exact ⟨h₁, h₂.1, h₂.2.2.1, h₂.2.2.2.2.2⟩

/-- C10: when the final `flush` inside `destroy` fails (non-empty queue,
failing delivery), `destroy` throws `DESTROY_ERROR` and no teardown
happens: the periodic flush timer flag is untouched, the callbacks are
kept, the queue still holds the (restored) events, and the coordinator
remains initialized. -/
theorem c10_destroy_aborts_on_flush_failure
    (s : SDKState) (t : Nat → TransportOutcome) (a : List Event)
    (hinit : s.isInitialized = true)
    (hne : s.eventQueue ≠ [])
    (hfail : (NetworkManager.sendBatch s.config.retryConfig t).result.success = false) :
    AdquimoSDK.destroy s t a =
      ({ s with eventQueue := s.eventQueue ++ a },
        .error (AdquimoSDK.wrapError "DESTROY_ERROR")) ∧
    (AdquimoSDK.destroy s t a).1.isInitialized = true ∧
    (AdquimoSDK.destroy s t a).1.flushTimerSet = s.flushTimerSet ∧
    (AdquimoSDK.destroy s t a).1.callbacks = s.callbacks ∧
    (AdquimoSDK.destroy s t a).1.eventQueue = s.eventQueue ++ a := by
  have h1 := flush_failure_eq s t a hne hfail
  unfold AdquimoSDK.destroy
  rw [h1]
  exact ⟨rfl, hinit, rfl, rfl, rfl⟩

/-- C10 witness: an initialized coordinator with one queued event and a
permanently failing delivery. -/
theorem c10_destroy_aborts_on_flush_failure_witness :
    AdquimoSDK.destroy (demoSDK true [sampleEvent "e1"]) failingTransport [] =
      ({ demoSDK true [sampleEvent "e1"] with
          eventQueue := (demoSDK true [sampleEvent "e1"]).eventQueue ++ [] },
        .error (AdquimoSDK.wrapError "DESTROY_ERROR")) ∧
    (AdquimoSDK.destroy (demoSDK true [sampleEvent "e1"]) failingTransport
        []).1.isInitialized = true ∧
    (AdquimoSDK.destroy (demoSDK true [sampleEvent "e1"]) failingTransport
        []).1.flushTimerSet = (demoSDK true [sampleEvent "e1"]).flushTimerSet ∧
    (AdquimoSDK.destroy (demoSDK true [sampleEvent "e1"]) failingTransport
        []).1.callbacks = (demoSDK true [sampleEvent "e1"]).callbacks ∧
    (AdquimoSDK.destroy (demoSDK true [sampleEvent "e1"]) failingTransport
        []).1.eventQueue = (demoSDK true [sampleEvent "e1"]).eventQueue ++ [] :=
  c10_destroy_aborts_on_flush_failure (demoSDK true [sampleEvent "e1"])
    failingTransport [] rfl (by simp [demoSDK]) rfl

/-- C3 witness: the general schedule applied to the concrete policy and
the permanently-failing transport. -/
theorem c3_backoff_schedule_witness :
    (NetworkManager.request ⟨3, 100, 1000, 2⟩ failingTransport).attempts = 3 + 1 ∧
    (NetworkManager.request ⟨3, 100, 1000, 2⟩ failingTransport).delays =
      (List.range 3).map
        (fun k => NetworkManager.calculateDelay k ⟨3, 100, 1000, 2⟩) ∧
    (NetworkManager.request ⟨3, 100, 1000, 2⟩ failingTransport).result.success = false :=
  c3_backoff_schedule.1 ⟨3, 100, 1000, 2⟩ failingTransport (fun _ => rfl)

end AdquimoModel
